import Mathlib

/-!
Shallow embedding of the runtime data model of `oci-spec-rs`
(`src/runtime/miscellaneous.rs`, `src/runtime/state.rs`, `src/runtime/zos.rs`).

Paths (`PathBuf`) are modelled as `String`; JSON documents are modelled as a
`Json` tree, abstracting the byte-level encoding that `serde_json` performs;
the file system is a map from paths to stored documents.  Every definition
follows the Rust source, including the serde attributes (`rename`,
`default`, `skip_serializing_if`) and the `derive_builder` semantics.
-/

namespace OciSpec

/-- Error taxonomy of the crate (`OciSpecError`): I/O failure, serialization
failure, and semantic-validation failure (`Other`), each carrying a message. -/
inductive OciSpecError where
  | io (msg : String)
  | serDe (msg : String)
  | other (msg : String)
deriving Repr, DecidableEq

/-- JSON documents, the wire format.  Objects keep key order, matching the
order that serde emits fields in. -/
inductive Json where
  | null
  | bool (b : Bool)
  | num (n : Int)
  | str (s : String)
  | arr (elems : List Json)
  | obj (fields : List (String × Json))
deriving Repr

/-- Look up the value of key `k` in a JSON object field list (first match,
as serde sees on deserialization). -/
def lookupField (kvs : List (String × Json)) (k : String) : Option Json :=
  (kvs.find? (fun kv => kv.1 == k)).map Prod.snd

/-- `ContainerState` from `state.rs`: the lifecycle phase of a container.
Serde attribute: `rename_all = "lowercase"`; `Stopped` is the default. -/
inductive ContainerState where
  | Creating
  | Created
  | Running
  | Stopped
deriving Repr, DecidableEq

/-- The wire token of a `ContainerState`: serde `rename_all = "lowercase"`
lowercases the variant name; the `Display` impl writes the same strings. -/
def containerStateToken : ContainerState → String
  | .Creating => "creating"
  | .Created => "created"
  | .Running => "running"
  | .Stopped => "stopped"

/-- Deserializing a `ContainerState` token: the derived `Deserialize`
accepts exactly the four lowercase tokens and rejects anything else. -/
def containerStateFromToken (t : String) : Except OciSpecError ContainerState :=
  if t = "creating" then .ok .Creating
  else if t = "created" then .ok .Created
  else if t = "running" then .ok .Running
  else if t = "stopped" then .ok .Stopped
  else .error (.serDe ("unknown variant " ++ t))

/-- `Root` from `miscellaneous.rs`: the root filesystem description. -/
structure Root where
  path : String
  readonly : Option Bool
deriving Repr, DecidableEq

/-- The `Default` impl for `Root`: path `"rootfs"`, readonly `Some(true)`. -/
def Root.defaultRoot : Root :=
  { path := "rootfs", readonly := some true }

/-- Derived `Deserialize` for `Root`: `path` has `#[serde(default)]`
(missing key yields the empty `PathBuf`), `readonly` is an optional bool
(missing or `null` yields `None`).  Unknown keys are ignored. -/
def Root.fromJson (j : Json) : Except OciSpecError Root :=
  match j with
  | .obj kvs =>
    match lookupField kvs "path" with
    | some (.str p) =>
      match lookupField kvs "readonly" with
      | none => .ok { path := p, readonly := none }
      | some .null => .ok { path := p, readonly := none }
      | some (.bool b) => .ok { path := p, readonly := some b }
      | some _ => .error (.serDe "invalid type for field readonly")
    | none =>
      match lookupField kvs "readonly" with
      | none => .ok { path := "", readonly := none }
      | some .null => .ok { path := "", readonly := none }
      | some (.bool b) => .ok { path := "", readonly := some b }
      | some _ => .error (.serDe "invalid type for field readonly")
    | some _ => .error (.serDe "invalid type for field path")
  | _ => .error (.serDe "expected object")

/-- Modelled from the spec: the ID-mapping entity (`LinuxIdMapping`, the
external collaborator defined outside this excerpt) maps a contiguous range
of container IDs to host IDs.  Only its presence and list emptiness matter
to the mount validation rule. -/
structure LinuxIdMapping where
  containerId : Int
  hostId : Int
  size : Int
deriving Repr, DecidableEq

/-- Modelled from the spec: deserializing one ID-mapping entry requires the
three numeric fields of the external wire contract. -/
def LinuxIdMapping.fromJson (j : Json) : Except OciSpecError LinuxIdMapping :=
  match j with
  | .obj kvs =>
    match lookupField kvs "containerID", lookupField kvs "hostID",
        lookupField kvs "size" with
    | some (.num c), some (.num h), some (.num s) =>
      .ok { containerId := c, hostId := h, size := s }
    | _, _, _ => .error (.serDe "invalid LinuxIdMapping")
  | _ => .error (.serDe "expected object")

/-- `Mount` from `miscellaneous.rs`: one filesystem mount entry. -/
structure Mount where
  destination : String
  typ : Option String
  source : Option String
  options : Option (List String)
  uid_mappings : Option (List LinuxIdMapping)
  gid_mappings : Option (List LinuxIdMapping)
deriving Repr, DecidableEq

/-- The derived `Default` for `Mount`: every field takes its type default. -/
def Mount.defaultMount : Mount :=
  { destination := "", typ := none, source := none, options := none,
    uid_mappings := none, gid_mappings := none }

/-- `MountBuilder` generated by `derive_builder` (owned pattern, struct-level
`default`): each staged field is `Option` of the target field type; unset
fields fall back to the target type default at build time. -/
structure MountBuilder where
  destination : Option String := none
  typ : Option (Option String) := none
  source : Option (Option String) := none
  options : Option (Option (List String)) := none
  uid_mappings : Option (Option (List LinuxIdMapping)) := none
  gid_mappings : Option (Option (List LinuxIdMapping)) := none

/-- `uid_specified` in `MountBuilder::validate`: the staged `uid_mappings`
is present and the inner option holds a non-empty list. -/
def MountBuilder.uidSpecified (b : MountBuilder) : Bool :=
  ((b.uid_mappings.bind id).map (fun v => !v.isEmpty)).getD false

/-- `gid_specified` in `MountBuilder::validate`, computed analogously. -/
def MountBuilder.gidSpecified (b : MountBuilder) : Bool :=
  ((b.gid_mappings.bind id).map (fun v => !v.isEmpty)).getD false

/-- `MountBuilder::validate`: fail exactly when exactly one of the two
mapping lists is specified (exclusive or). -/
def MountBuilder.validate (b : MountBuilder) : Except OciSpecError Unit :=
  if b.uidSpecified.xor b.gidSpecified then
    .error (.other
      "Mount.uidMappings and Mount.gidMappings must be specified together")
  else
    .ok ()

/-- `MountBuilder::build`: run the validation hook, then materialize the
mount, defaulting every unset field. -/
def MountBuilder.build (b : MountBuilder) : Except OciSpecError Mount :=
  match b.validate with
  | .error e => .error e
  | .ok _ => .ok
      { destination := b.destination.getD ""
        typ := b.typ.getD none
        source := b.source.getD none
        options := b.options.getD none
        uid_mappings := b.uid_mappings.getD none
        gid_mappings := b.gid_mappings.getD none }

/-- The joint-presence invariant on a built `Mount` value, mirroring the
builder validation: uid mappings are present-and-nonempty iff gid mappings
are. -/
def Mount.pairingOk (m : Mount) : Bool :=
  ((m.uid_mappings.map (fun v => !v.isEmpty)).getD false)
    == ((m.gid_mappings.map (fun v => !v.isEmpty)).getD false)

/-- Optional string field: missing or `null` yields `None`. -/
def decodeOptStr (kvs : List (String × Json)) (k : String) :
    Except OciSpecError (Option String) :=
  match lookupField kvs k with
  | none => .ok none
  | some .null => .ok none
  | some (.str s) => .ok (some s)
  | some _ => .error (.serDe ("invalid type for field " ++ k))

/-- Optional list-of-strings field. -/
def decodeOptStrList (kvs : List (String × Json)) (k : String) :
    Except OciSpecError (Option (List String)) :=
  match lookupField kvs k with
  | none => .ok none
  | some .null => .ok none
  | some (.arr xs) => (xs.mapM (fun x => match x with
      | Json.str s => Except.ok s
      | _ => (Except.error (.serDe ("invalid type in field " ++ k)) :
          Except OciSpecError String))).map some
  | some _ => .error (.serDe ("invalid type for field " ++ k))

/-- Optional list of ID mappings. -/
def decodeIdMappings (kvs : List (String × Json)) (k : String) :
    Except OciSpecError (Option (List LinuxIdMapping)) :=
  match lookupField kvs k with
  | none => .ok none
  | some .null => .ok none
  | some (.arr xs) => (xs.mapM LinuxIdMapping.fromJson).map some
  | some _ => .error (.serDe ("invalid type for field " ++ k))

/-- Derived `Deserialize` for `Mount`: `destination` is required (no serde
default); the remaining fields have `#[serde(default)]` and the wire names
`type`, `uidMappings`, `gidMappings`.  No validation hook runs here. -/
def Mount.fromJson (j : Json) : Except OciSpecError Mount :=
  match j with
  | .obj kvs => do
    let destination ← match lookupField kvs "destination" with
      | some (.str s) => Except.ok s
      | some _ => Except.error (.serDe "invalid type for field destination")
      | none => Except.error (.serDe "missing field destination")
    let typ ← decodeOptStr kvs "type"
    let source ← decodeOptStr kvs "source"
    let options ← decodeOptStrList kvs "options"
    let uid_mappings ← decodeIdMappings kvs "uidMappings"
    let gid_mappings ← decodeIdMappings kvs "gidMappings"
    Except.ok
      { destination := destination
        typ := typ
        source := source
        options := options
        uid_mappings := uid_mappings
        gid_mappings := gid_mappings }
  | _ => .error (.serDe "expected object")

/-- `get_default_mounts` from `miscellaneous.rs`: the canonical list of the
seven standard container mounts, transcribed field by field. -/
def get_default_mounts : List Mount :=
  [ { destination := "/proc"
      typ := some "proc"
      source := some "proc"
      options := none
      uid_mappings := none
      gid_mappings := none }
  , { destination := "/dev"
      typ := some "tmpfs"
      source := some "tmpfs"
      options := some ["nosuid", "strictatime", "mode=755", "size=65536k"]
      uid_mappings := none
      gid_mappings := none }
  , { destination := "/dev/pts"
      typ := some "devpts"
      source := some "devpts"
      options := some ["nosuid", "noexec", "newinstance", "ptmxmode=0666",
        "mode=0620", "gid=5"]
      uid_mappings := none
      gid_mappings := none }
  , { destination := "/dev/shm"
      typ := some "tmpfs"
      source := some "shm"
      options := some ["nosuid", "noexec", "nodev", "mode=1777",
        "size=65536k"]
      uid_mappings := none
      gid_mappings := none }
  , { destination := "/dev/mqueue"
      typ := some "mqueue"
      source := some "mqueue"
      options := some ["nosuid", "noexec", "nodev"]
      uid_mappings := none
      gid_mappings := none }
  , { destination := "/sys"
      typ := some "sysfs"
      source := some "sysfs"
      options := some ["nosuid", "noexec", "nodev", "ro"]
      uid_mappings := none
      gid_mappings := none }
  , { destination := "/sys/fs/cgroup"
      typ := some "cgroup"
      source := some "cgroup"
      options := some ["nosuid", "noexec", "nodev", "relatime", "ro"]
      uid_mappings := none
      gid_mappings := none } ]

/-- Mutate the first list element satisfying `p` with `f`, modelling
`iter_mut().find(p).map(f)` on a vector. -/
def modifyFirst (p : Mount → Bool) (f : Mount → Mount) : List Mount → List Mount
  | [] => []
  | m :: rest => if p m then f m :: rest else m :: modifyFirst p f rest

/-- `get_rootless_mounts` from `miscellaneous.rs`: start from the default
catalog; on the first `/dev/pts` entry drop every `gid=5` option
(`retain`); on the first `/sys` entry set type `none`, source `/sys`, and
push `rbind` onto its options when present. -/
def get_rootless_mounts : List Mount :=
  let mounts := get_default_mounts
  let mounts := modifyFirst (fun m => m.destination == "/dev/pts")
    (fun m =>
      { m with options := m.options.map (fun opts =>
          opts.filter (fun o => o != "gid=5")) })
    mounts
  modifyFirst (fun m => m.destination == "/sys")
    (fun m =>
      { m with
        typ := some "none"
        source := some "/sys"
        options := m.options.map (fun opts => opts ++ ["rbind"]) })
    mounts

/-- `State` from `state.rs`: the persisted runtime state snapshot. -/
structure State where
  version : String
  id : String
  status : ContainerState
  pid : Option Int
  bundle : String
  annotations : Option (List (String × String))
deriving Repr, DecidableEq

/-- The derived `Default` for `State`: empty strings and paths, status
`Stopped`, absent pid and annotations. -/
def State.defaultState : State :=
  { version := "", id := "", status := .Stopped, pid := none, bundle := "",
    annotations := none }

/-- Annotations serialize as a JSON object of string values. -/
def annotationsToJson (a : List (String × String)) : Json :=
  .obj (a.map (fun kv => (kv.1, Json.str kv.2)))

/-- Parse an annotations object back into key-value pairs; every value must
be a string. -/
def parseAnnotations :
    List (String × Json) → Except OciSpecError (List (String × String))
  | [] => .ok []
  | (k, .str v) :: rest => (parseAnnotations rest).map (fun a => (k, v) :: a)
  | (_, _) :: _ => .error (.serDe "invalid type for annotation value")

/-- Derived `Serialize` for `State` with `rename_all = "camelCase"`:
`version` is emitted under `ociVersion`; `pid` and `annotations` carry
`skip_serializing_if = "Option::is_none"` and are omitted when absent;
the remaining fields always serialize, in declaration order. -/
def State.toJson (s : State) : Json :=
  .obj ([("ociVersion", Json.str s.version), ("id", Json.str s.id),
      ("status", Json.str (containerStateToken s.status))]
    ++ (match s.pid with
        | none => []
        | some p => [("pid", Json.num p)])
    ++ [("bundle", Json.str s.bundle)]
    ++ (match s.annotations with
        | none => []
        | some a => [("annotations", annotationsToJson a)]))

/-- A string field with `#[serde(default)]`: missing key yields `d`. -/
def decodeStrD (kvs : List (String × Json)) (k d : String) :
    Except OciSpecError String :=
  match lookupField kvs k with
  | none => .ok d
  | some (.str s) => .ok s
  | some _ => .error (.serDe ("invalid type for field " ++ k))

/-- The `status` field: `#[serde(default)]` yields `Stopped` when missing;
otherwise the lowercase token is decoded. -/
def decodeStatus (kvs : List (String × Json)) :
    Except OciSpecError ContainerState :=
  match lookupField kvs "status" with
  | none => .ok .Stopped
  | some (.str t) => containerStateFromToken t
  | some _ => .error (.serDe "invalid type for field status")

/-- The `pid` field (`Option<i32>`): missing or `null` yields `None`. -/
def decodePid (kvs : List (String × Json)) :
    Except OciSpecError (Option Int) :=
  match lookupField kvs "pid" with
  | none => .ok none
  | some .null => .ok none
  | some (.num n) => .ok (some n)
  | some _ => .error (.serDe "invalid type for field pid")

/-- The `annotations` field: missing or `null` yields `None`. -/
def decodeAnnotations (kvs : List (String × Json)) :
    Except OciSpecError (Option (List (String × String))) :=
  match lookupField kvs "annotations" with
  | none => .ok none
  | some .null => .ok none
  | some (.obj a) => (parseAnnotations a).map some
  | some _ => .error (.serDe "invalid type for field annotations")

/-- Derived `Deserialize` for `State`: every field carries
`#[serde(default)]`, so any subset of keys is accepted; unknown keys are
ignored. -/
def State.fromJson (j : Json) : Except OciSpecError State :=
  match j with
  | .obj kvs => do
    let version ← decodeStrD kvs "ociVersion" ""
    let id ← decodeStrD kvs "id" ""
    let status ← decodeStatus kvs
    let pid ← decodePid kvs
    let bundle ← decodeStrD kvs "bundle" ""
    let annotations ← decodeAnnotations kvs
    Except.ok
      { version := version
        id := id
        status := status
        pid := pid
        bundle := bundle
        annotations := annotations }
  | _ => .error (.serDe "expected object")

/-- The file system as seen by `State::load` / `State::save`: a map from
paths to stored JSON documents. -/
def FS : Type := String → Option Json

/-- `State::save`: create (or truncate) the file at `path` and write the
serialized document through a buffered writer, flushing before returning,
so the full document is on disk when `save` succeeds. -/
def State.save (s : State) (path : String) (fs : FS) :
    Except OciSpecError FS :=
  .ok (fun q => if q = path then some s.toJson else fs q)

/-- `State::load`: open the file at `path` (I/O error when absent) and
parse its contents as a `State` document. -/
def State.load (path : String) (fs : FS) : Except OciSpecError State :=
  match fs path with
  | none => .error (.io "No such file or directory")
  | some j => State.fromJson j

/-- `ZOSNamespaceType` from `zos.rs`. -/
inductive ZOSNamespaceType where
  | Pid
  | Mount
  | Ipc
  | Uts
deriving Repr, DecidableEq

/-- `TryFrom<&str> for ZOSNamespaceType`: exactly the four lowercase tokens
convert; anything else fails with a validation error naming the token. -/
def ZOSNamespaceType.tryFrom (s : String) :
    Except OciSpecError ZOSNamespaceType :=
  if s = "pid" then .ok .Pid
  else if s = "mount" then .ok .Mount
  else if s = "ipc" then .ok .Ipc
  else if s = "uts" then .ok .Uts
  else .error (.other
    ("unknown z/OS namespace " ++ s ++ ", could not convert"))

/-- The JSON document of a `Mount` whose `uidMappings` is present and
non-empty while `gidMappings` is absent. -/
def mountUidOnlyDoc : Json :=
  Json.obj [("destination", Json.str "/foo"),
    ("uidMappings", Json.arr [Json.obj [("containerID", Json.num 0),
      ("hostID", Json.num 1000), ("size", Json.num 1)]])]

/-- The `Mount` value that `mountUidOnlyDoc` deserializes to. -/
def mountUidOnly : Mount :=
  { destination := "/foo", typ := none, source := none, options := none,
    uid_mappings := some [{ containerId := 0, hostId := 1000, size := 1 }],
    gid_mappings := none }

/-- Annotation objects built by serialization parse back to the original
pair list. -/
theorem parseAnnotations_annotationsToJson (a : List (String × String)) :
    parseAnnotations (a.map (fun kv => (kv.1, Json.str kv.2))) =
      Except.ok a := by
  induction a with
  | nil => rfl
  | cons kv rest ih => simp [parseAnnotations, ih, Except.map]

/-- Deserialization inverts serialization on every `State` value. -/
theorem State.fromJson_toJson (s : State) :
    State.fromJson s.toJson = Except.ok s := by
  obtain ⟨v, i, st, pid, b, ann⟩ := s
  cases ann with
  | none => cases pid <;> cases st <;> rfl
  | some a =>
    cases pid <;> cases st <;>
      simp [State.toJson, State.fromJson, decodeStrD, decodeStatus,
        decodePid, decodeAnnotations, lookupField, List.find?,
        containerStateFromToken, containerStateToken, annotationsToJson,
        parseAnnotations_annotationsToJson, Bind.bind, Except.bind,
        Except.map]

/-- C1: `MountBuilder::build` fails with the pairing validation error
exactly when exactly one of `uid_mappings` / `gid_mappings` is specified
(present with a non-empty list); when both or neither are specified the
build succeeds. -/
theorem mountBuilder_build_validation (b : MountBuilder) :
    ((∃ m, b.build = Except.ok m) ↔ b.uidSpecified = b.gidSpecified)
    ∧ (b.uidSpecified ≠ b.gidSpecified →
        b.build = Except.error (OciSpecError.other
          "Mount.uidMappings and Mount.gidMappings must be specified together")) := by
  cases hu : b.uidSpecified <;> cases hg : b.gidSpecified <;>
    simp [MountBuilder.build, MountBuilder.validate, hu, hg]

/-- C1 witness: a builder with only `uid_mappings` specified fails with the
pairing validation error. -/
theorem mountBuilder_build_validation_witness :
    MountBuilder.build
      { uid_mappings :=
          some (some [{ containerId := 0, hostId := 1000, size := 1 }]) } =
      Except.error (OciSpecError.other
        "Mount.uidMappings and Mount.gidMappings must be specified together") :=
  (mountBuilder_build_validation _).2 (by decide)

/-- C3: deserializing a `Mount` never runs the builder validation hook: a
document with non-empty `uidMappings` and no `gidMappings` deserializes
successfully into a value violating the pairing invariant. -/
theorem mount_deserialize_skips_validation :
    Mount.fromJson mountUidOnlyDoc = Except.ok mountUidOnly
    ∧ mountUidOnly.uid_mappings =
        some [{ containerId := 0, hostId := 1000, size := 1 }]
    ∧ mountUidOnly.gid_mappings = none
    ∧ mountUidOnly.pairingOk = false := by
  refine ⟨rfl, rfl, rfl, rfl⟩

/-- C4: the default mount catalog has exactly seven entries, in the fixed
destination order; the `/dev/pts` entry carries the `gid=5` option; the
`/sys` entry has type `sysfs` and carries the `ro` option. -/
theorem default_mounts_spec :
    get_default_mounts.length = 7
    ∧ get_default_mounts.map Mount.destination =
        ["/proc", "/dev", "/dev/pts", "/dev/shm", "/dev/mqueue", "/sys",
          "/sys/fs/cgroup"]
    ∧ "gid=5" ∈ (get_default_mounts.getD 2 Mount.defaultMount).options.getD []
    ∧ (get_default_mounts.getD 5 Mount.defaultMount).typ = some "sysfs"
    ∧ "ro" ∈ (get_default_mounts.getD 5 Mount.defaultMount).options.getD [] := by
  refine ⟨rfl, rfl, by decide, rfl, by decide⟩

/-- C5: the rootless catalog has the same seven destinations; its
`/dev/pts` entry equals the default one with the `gid=5` option filtered
out; its `/sys` entry equals the default one with type `none`, source
`/sys`, and `rbind` appended to the options; every other entry equals the
corresponding default entry. -/
theorem rootless_mounts_spec :
    get_rootless_mounts.map Mount.destination =
        get_default_mounts.map Mount.destination
    ∧ get_rootless_mounts.getD 2 Mount.defaultMount =
        { get_default_mounts.getD 2 Mount.defaultMount with
          options := some
            (((get_default_mounts.getD 2 Mount.defaultMount).options.getD
              []).filter (fun o => o != "gid=5")) }
    ∧ "gid=5" ∉
        (get_rootless_mounts.getD 2 Mount.defaultMount).options.getD []
    ∧ get_rootless_mounts.getD 5 Mount.defaultMount =
        { get_default_mounts.getD 5 Mount.defaultMount with
          typ := some "none"
          source := some "/sys"
          options := some
            (((get_default_mounts.getD 5 Mount.defaultMount).options.getD
              []) ++ ["rbind"]) }
    ∧ (∀ i ∈ [0, 1, 3, 4, 6], get_rootless_mounts.getD i Mount.defaultMount =
        get_default_mounts.getD i Mount.defaultMount) := by
  refine ⟨rfl, by decide, by decide, by decide, by decide⟩

/-- C7: every `ContainerState` round-trips through its wire token, and the
token is exactly the lowercase variant name. -/
theorem containerState_token_roundtrip (c : ContainerState) :
    containerStateFromToken (containerStateToken c) = Except.ok c
    ∧ containerStateToken ContainerState.Creating = "creating"
    ∧ containerStateToken ContainerState.Created = "created"
    ∧ containerStateToken ContainerState.Running = "running"
    ∧ containerStateToken ContainerState.Stopped = "stopped" := by
  refine ⟨?_, rfl, rfl, rfl, rfl⟩
  cases c <;> rfl

/-- C8: `TryFrom<&str>` for `ZOSNamespaceType` maps exactly the four
lowercase tokens to their variants and fails on every other string with a
validation error whose message contains the offending token. -/
theorem zosNamespaceType_tryFrom_spec :
    ZOSNamespaceType.tryFrom "pid" = Except.ok ZOSNamespaceType.Pid
    ∧ ZOSNamespaceType.tryFrom "mount" = Except.ok ZOSNamespaceType.Mount
    ∧ ZOSNamespaceType.tryFrom "ipc" = Except.ok ZOSNamespaceType.Ipc
    ∧ ZOSNamespaceType.tryFrom "uts" = Except.ok ZOSNamespaceType.Uts
    ∧ ∀ s, s ≠ "pid" → s ≠ "mount" → s ≠ "ipc" → s ≠ "uts" →
        ∃ pre post, ZOSNamespaceType.tryFrom s =
          Except.error (OciSpecError.other (pre ++ s ++ post)) := by
  refine ⟨rfl, rfl, rfl, rfl, ?_⟩
  intro s h1 h2 h3 h4
  exact ⟨"unknown z/OS namespace ", ", could not convert",
    by simp [ZOSNamespaceType.tryFrom, h1, h2, h3, h4]⟩

/-- C8 witness: parsing the token `bogus` fails with a validation error
whose message contains `bogus`. -/
theorem zosNamespaceType_tryFrom_spec_witness :
    ∃ pre post, ZOSNamespaceType.tryFrom "bogus" =
      Except.error (OciSpecError.other (pre ++ "bogus" ++ post)) :=
  zosNamespaceType_tryFrom_spec.2.2.2.2 "bogus" (by decide) (by decide)
    (by decide) (by decide)

/-- C9: default construction of `Root` yields path `rootfs` and readonly
`Some(true)`. -/
theorem root_default_values :
    Root.defaultRoot.path = "rootfs"
    ∧ Root.defaultRoot.readonly = some true :=
  ⟨rfl, rfl⟩

/-- C10: deserializing the empty JSON object as a `Root` succeeds and
yields the empty path and `readonly = None`, which differ from the
documented constructor defaults. -/
theorem root_deserialize_empty_object :
    Root.fromJson (Json.obj []) =
      Except.ok { path := "", readonly := none }
    ∧ ({ path := "", readonly := none } : Root) ≠ Root.defaultRoot := by
  exact ⟨rfl, by decide⟩

/-- C2: for every `State` value and path, if `save` succeeds then `load`
on the resulting file system succeeds and returns a value equal to the
original (save-then-load round-trip identity; `save` leaves the complete
document at the path because it flushes before returning). -/
theorem state_save_load_roundtrip (s : State) (p : String) (fs fs2 : FS)
    (h : s.save p fs = Except.ok fs2) :
    State.load p fs2 = Except.ok s := by
  simp only [State.save, Except.ok.injEq] at h
  subst h
  simp only [State.load, if_pos rfl]
  exact State.fromJson_toJson s

/-- C2 witness: saving the default state to `state.json` on an empty file
system and loading it back returns the original state. -/
theorem state_save_load_roundtrip_witness :
    State.load "state.json"
      (fun q => if q = "state.json" then some State.defaultState.toJson
        else none) =
      Except.ok State.defaultState :=
  state_save_load_roundtrip State.defaultState "state.json" (fun _ => none)
    _ rfl

/-- C6: `version` serializes under the wire name `ociVersion`; absent `pid`
and `annotations` are omitted from the serialized object entirely; any
document without `pid` and `annotations` keys that deserializes does so
with both fields `None`, and in particular the empty object deserializes
to the default state. -/
theorem state_wire_optionality (s : State) (hp : s.pid = none)
    (ha : s.annotations = none) :
    s.toJson = Json.obj [("ociVersion", Json.str s.version),
        ("id", Json.str s.id),
        ("status", Json.str (containerStateToken s.status)),
        ("bundle", Json.str s.bundle)]
    ∧ (∀ kvs st, lookupField kvs "pid" = none →
        lookupField kvs "annotations" = none →
        State.fromJson (Json.obj kvs) = Except.ok st →
        st.pid = none ∧ st.annotations = none)
    ∧ State.fromJson (Json.obj []) = Except.ok State.defaultState := by
  refine ⟨by simp [State.toJson, hp, ha], ?_, rfl⟩
  intro kvs st h1 h2 h3
  simp only [State.fromJson, Bind.bind, Except.bind, decodePid, h1,
    decodeAnnotations, h2] at h3
  cases hv : decodeStrD kvs "ociVersion" "" <;> simp [hv] at h3
  cases hi : decodeStrD kvs "id" "" <;> simp [hi] at h3
  cases hs : decodeStatus kvs <;> simp [hs] at h3
  cases hb : decodeStrD kvs "bundle" "" <;> simp [hb] at h3
  subst h3
  exact ⟨rfl, rfl⟩

/-- C6 witness: the default state (absent pid and annotations) serializes
to exactly the four always-present fields. -/
theorem state_wire_optionality_witness :
    State.defaultState.toJson = Json.obj [("ociVersion", Json.str ""),
      ("id", Json.str ""), ("status", Json.str "stopped"),
      ("bundle", Json.str "")] :=
  (state_wire_optionality State.defaultState rfl rfl).1

end OciSpec
